import Mathlib

/-!
Verification of the handle-bridge shim (`src/shim.cpp`) of go-unityscopes.

The shim marshals `std::shared_ptr` ownership across the C/Go boundary.
We embed it shallowly: a `World` of instrumented reference-counted
Managed Objects, a `Handle` that is either uninitialized or a shared
reference to one object, and each C function of `src/shim.cpp` as an
explicit state transformer that sequences the refcount effects of the
temporaries exactly as the C++ source does.

`smartptr_helper.h` and `scope.h` are part of the repository but are not
under `src/`, so `get_ptr`, `init_ptr` and `destroy_ptr`, together with
the native Unity-scopes calls (`Reply::finished`,
`Reply::register_category`, `Runtime::create`), are modelled from the
spec; `shim.cpp` itself is translated line by line.
-/

namespace GoUnityScopes

/-- Object identifier inside a `World` (the identity of a Managed Object). -/
abbrev ObjId := Nat

/-- An instrumented Managed Object (a Reply or a Category): its shared
refcount, a counter of how many times its cleanup/destructor ran, its
observable business fields (category id, title, icon) and a counter of
`finished()` invocations. -/
structure Object where
  refcount : Nat
  cleanups : Nat
  catId : String
  title : String
  icon : String
  finishedCalls : Nat
  deriving DecidableEq, Repr

/-- The native heap: Managed Objects indexed by `ObjId`; allocation appends. -/
structure World where
  objs : List Object
  deriving DecidableEq, Repr

/-- A `SharedPtrData` handle slot: either uninitialized (zeroed storage,
holding no ownership) or initialized, holding one shared-ownership
reference to object `i`. -/
inductive Handle where
  | uninit : Handle
  | ref : ObjId → Handle
  deriving DecidableEq, Repr

/-- Replace the object stored at index `i`. -/
def World.setObj (w : World) (i : ObjId) (o : Object) : World :=
  ⟨w.objs.set i o⟩

/-- Modelled from the spec (`smartptr_helper.h` is not under `src/`):
taking one more shared-ownership count on object `i` — "incrementing the
refcount by one". -/
def acquireRef (w : World) (i : ObjId) : World :=
  match w.objs[i]? with
  | some o => w.setObj i { o with refcount := o.refcount + 1 }
  | none => w

/-- Modelled from the spec: dropping one shared-ownership count —
"Decrements the refcount by one; if it reaches zero, the Managed Object
is destroyed (its destructor/cleanup runs)", instrumented by bumping the
`cleanups` counter when the count reaches zero. -/
def releaseRef (w : World) (i : ObjId) : World :=
  match w.objs[i]? with
  | some o =>
    if o.refcount = 1 then
      w.setObj i { o with refcount := 0, cleanups := o.cleanups + 1 }
    else
      w.setObj i { o with refcount := o.refcount - 1 }
  | none => w

/-- Modelled from the spec: `get_ptr` reads a handle's storage and yields
the referenced object identity (the target of the temporary shared
reference it returns); by itself it does not change the world — the
temporary's own count is sequenced explicitly by each shim function. -/
def get_ptr (h : Handle) : Option ObjId :=
  match h with
  | .uninit => none
  | .ref i => some i

/-- Modelled from the spec: `init_ptr` constructs a new shared reference
inside the destination handle from a live shared pointer to object `i`,
incrementing the refcount by one; the destination becomes initialized. -/
def init_ptr (w : World) (i : ObjId) : World × Handle :=
  (acquireRef w i, Handle.ref i)

/-- Modelled from the spec: `destroy_ptr` releases the handle's shared
reference (refcount decremented, cleanup at zero); on a zeroed handle the
stored shared pointer is null and nothing is released. -/
def destroy_ptr (w : World) (h : Handle) : World :=
  match h with
  | .uninit => w
  | .ref i => releaseRef w i

/-- `init_reply_ptr` (src/shim.cpp lines 20-23): a temporary
`std::shared_ptr<Reply>` is read from `src` via `get_ptr` (the temporary
holds one count while in scope), `dest` is initialized from it via
`init_ptr`, and the temporary is destroyed at scope exit. Returns the
new world and the `dest` handle. -/
def init_reply_ptr (w : World) (src : Handle) : World × Handle :=
  match get_ptr src with
  | none => (w, Handle.uninit)
  | some i =>
    let w1 := acquireRef w i
    let r := init_ptr w1 i
    (releaseRef r.1 i, r.2)

/-- `destroy_reply_ptr` (src/shim.cpp lines 25-27). -/
def destroy_reply_ptr (w : World) (data : Handle) : World :=
  destroy_ptr w data

/-- `Reply::finished` — modelled from the spec: "invokes a terminal
lifecycle operation on the Reply"; instrumented as a counter of
`finished()` invocations; the native call itself has no refcount effect. -/
def finishedNative (w : World) (i : ObjId) : World :=
  match w.objs[i]? with
  | some o => w.setObj i { o with finishedCalls := o.finishedCalls + 1 }
  | none => w

/-- `reply_finished` (src/shim.cpp lines 29-31): re-derives a temporary
shared reference via `get_ptr` and calls `finished()` through it; the
temporary is destroyed at the end of the full expression. -/
def reply_finished (w : World) (h : Handle) : World :=
  match get_ptr h with
  | none => w
  | some i => releaseRef (finishedNative (acquireRef w i) i) i

/-- The fresh Category Managed Object as allocated by
`Reply::register_category`: one shared-ownership count (held by the
returned shared pointer), cleanup not yet run, and the given observable
fields. -/
def freshCategory (id title icon : String) : Object :=
  { refcount := 1, cleanups := 0, catId := id, title := title,
    icon := icon, finishedCalls := 0 }

/-- `Reply::register_category` — modelled from the spec: "a new Managed
Object created as a side effect of a registration call on an existing
Managed Object"; the returned shared pointer holds the single count on
the fresh Category, whose observable fields are the given id, title and
icon. -/
def register_category_native (w : World) (id title icon : String) :
    World × ObjId :=
  (⟨w.objs ++ [freshCategory id title icon]⟩, w.objs.length)

/-- `reply_register_category` (src/shim.cpp lines 33-36): a temporary
shared reference to the Reply is derived via `get_ptr`; the native
`register_category` call allocates the new Category (held by the local
`cat` shared pointer); `init_ptr` initializes the output handle from
`cat`; then `cat` and the Reply temporary are destroyed in reverse
declaration order. Returns the new world and the output category handle. -/
def reply_register_category (w : World) (reply : Handle)
    (id title icon : String) : World × Handle :=
  match get_ptr reply with
  | none => (w, Handle.uninit)
  | some i =>
    let w1 := acquireRef w i
    let rc := register_category_native w1 id title icon
    let ri := init_ptr rc.1 rc.2
    let w4 := releaseRef ri.1 rc.2
    (releaseRef w4 i, ri.2)

/-- `destroy_category_ptr` (src/shim.cpp lines 38-40). -/
def destroy_category_ptr (w : World) (data : Handle) : World :=
  destroy_ptr w data

/-- Native actions performed by `run_scope`. -/
inductive ScopeEvent where
  | createRuntime : String → String → ScopeEvent
  | createAdapter : ScopeEvent
  | runScope : ScopeEvent
  deriving DecidableEq, Repr

/-- `run_scope` (src/shim.cpp lines 13-18) as the sequence of native
actions it performs: `Runtime::create(scope_name, runtime_config)` on
line 15 and the `ScopeAdapter` construction wrapping the foreign
callback descriptor on line 16; the `runtime->run_scope(&scope)` call on
line 17 is commented out in the source, so no `runScope` action occurs. -/
def run_scope (scope_name runtime_config : String) : List ScopeEvent :=
  [ScopeEvent.createRuntime scope_name runtime_config,
   ScopeEvent.createAdapter]

/-- `run_scope` with fallible native steps: `Runtime::create` and the
adapter construction are passed as computations that may raise a native
failure. The shim body (src/shim.cpp lines 13-18) contains no try/catch,
so failures short-circuit and propagate unchanged to the caller. -/
def run_scope_exc (create : String → String → Except String Unit)
    (mkAdapter : Except String Unit)
    (scope_name runtime_config : String) :
    Except String (List ScopeEvent) :=
  match create scope_name runtime_config with
  | .error e => .error e
  | .ok _ =>
    match mkAdapter with
    | .error e => .error e
    | .ok _ => .ok (run_scope scope_name runtime_config)

/-- `reply_finished` with a fallible native `finished()` call: the shim
body (src/shim.cpp lines 29-31) contains no try/catch, so a native
failure propagates unchanged. -/
def reply_finished_exc (finishedN : ObjId → World → Except String World)
    (w : World) (h : Handle) : Except String World :=
  match get_ptr h with
  | none => .ok w
  | some i =>
    match finishedN i (acquireRef w i) with
    | .error e => .error e
    | .ok w2 => .ok (releaseRef w2 i)

/-- `reply_register_category` with a fallible native `register_category`
call: the shim body (src/shim.cpp lines 33-36) contains no try/catch, so
a native failure propagates unchanged. -/
def reply_register_category_exc
    (registerN : ObjId → World → Except String (World × ObjId))
    (w : World) (h : Handle) : Except String (World × Handle) :=
  match get_ptr h with
  | none => .ok (w, Handle.uninit)
  | some i =>
    match registerN i (acquireRef w i) with
    | .error e => .error e
    | .ok rc =>
      let ri := init_ptr rc.1 rc.2
      .ok (releaseRef (releaseRef ri.1 rc.2) i, ri.2)

/-- Reading the full observable state of the Managed Object a handle
resolves to. -/
def readObject (w : World) (h : Handle) : Option Object :=
  match get_ptr h with
  | none => none
  | some i => w.objs[i]?

/-- Reading the observable title through a handle. -/
def readTitle (w : World) (h : Handle) : Option String :=
  (readObject w h).map Object.title

/-- Handle-accounting invariant of the Bridge (spec section 3): every
object's refcount equals the number of initialized foreign handles
referencing it plus its internal native reference count, and every
initialized handle references a live slot of the world. -/
def Inv (w : World) (hs : List Handle) (internal : Nat → Nat) : Prop :=
  (∀ i o, w.objs[i]? = some o →
      o.refcount = hs.count (Handle.ref i) + internal i) ∧
  (∀ i, Handle.ref i ∈ hs → i < w.objs.length)

/-! ### Helper lemmas about the world operations -/

theorem set_of_get_self {α : Type} (l : List α) (i : Nat) (a : α)
    (h : l[i]? = some a) : l.set i a = l := by
  induction l generalizing i with
  | nil => simp at h
  | cons x xs ih =>
    cases i with
    | zero =>
      simp at h
      simp [h]
    | succ n =>
      simp at h
      simp [ih n h]

theorem setObj_length (w : World) (i : ObjId) (o : Object) :
    (w.setObj i o).objs.length = w.objs.length := by
  simp [World.setObj]

theorem get_setObj_self (w : World) (i : ObjId) (o : Object)
    (h : i < w.objs.length) : (w.setObj i o).objs[i]? = some o :=
  List.getElem?_set_self h

theorem get_setObj_ne (w : World) (i j : ObjId) (o : Object) (h : i ≠ j) :
    (w.setObj i o).objs[j]? = w.objs[j]? :=
  List.getElem?_set_ne h

theorem setObj_setObj (w : World) (i : ObjId) (a b : Object) :
    (w.setObj i a).setObj i b = w.setObj i b := by
  show World.mk ((w.objs.set i a).set i b) = World.mk (w.objs.set i b)
  rw [List.set_set]

theorem acquireRef_get_self (w : World) (i : ObjId) (o : Object)
    (hg : w.objs[i]? = some o) :
    (acquireRef w i).objs[i]? = some { o with refcount := o.refcount + 1 } := by
  have hi : i < w.objs.length := (List.getElem?_eq_some.mp hg).1
  simp [acquireRef, hg, get_setObj_self _ _ _ hi]

theorem acquireRef_get_ne (w : World) (i j : ObjId) (h : i ≠ j) :
    (acquireRef w i).objs[j]? = w.objs[j]? := by
  unfold acquireRef
  cases hg : w.objs[i]? with
  | none => rfl
  | some o => exact get_setObj_ne _ _ _ _ h

theorem acquireRef_length (w : World) (i : ObjId) :
    (acquireRef w i).objs.length = w.objs.length := by
  unfold acquireRef
  cases hg : w.objs[i]? with
  | none => rfl
  | some o => exact setObj_length _ _ _

theorem acquireRef_eq (w : World) (i : ObjId) (o : Object)
    (hg : w.objs[i]? = some o) :
    acquireRef w i = w.setObj i { o with refcount := o.refcount + 1 } := by
  simp [acquireRef, hg]

theorem releaseRef_get_self (w : World) (i : ObjId) (o : Object)
    (hg : w.objs[i]? = some o) :
    (releaseRef w i).objs[i]? =
      some { o with refcount := o.refcount - 1,
                    cleanups := if o.refcount = 1 then o.cleanups + 1
                                else o.cleanups } := by
  have hi : i < w.objs.length := (List.getElem?_eq_some.mp hg).1
  by_cases h1 : o.refcount = 1
  · simp [releaseRef, hg, h1, get_setObj_self _ _ _ hi]
  · simp [releaseRef, hg, h1, get_setObj_self _ _ _ hi]

theorem releaseRef_get_ne (w : World) (i j : ObjId) (h : i ≠ j) :
    (releaseRef w i).objs[j]? = w.objs[j]? := by
  unfold releaseRef
  cases hg : w.objs[i]? with
  | none => rfl
  | some o =>
    by_cases h1 : o.refcount = 1 <;>
      simp [h1, get_setObj_ne _ _ _ _ h]

theorem releaseRef_length (w : World) (i : ObjId) :
    (releaseRef w i).objs.length = w.objs.length := by
  unfold releaseRef
  cases hg : w.objs[i]? with
  | none => rfl
  | some o =>
    by_cases h1 : o.refcount = 1 <;> simp [h1, setObj_length]

theorem finishedNative_get_ne (w : World) (i j : ObjId) (h : i ≠ j) :
    (finishedNative w i).objs[j]? = w.objs[j]? := by
  unfold finishedNative
  cases hg : w.objs[i]? with
  | none => rfl
  | some o => exact get_setObj_ne _ _ _ _ h

theorem finishedNative_length (w : World) (i : ObjId) :
    (finishedNative w i).objs.length = w.objs.length := by
  unfold finishedNative
  cases hg : w.objs[i]? with
  | none => rfl
  | some o => exact setObj_length _ _ _

/-! ### Net effect of each shim function -/

theorem init_reply_ptr_eq (w : World) (i : ObjId) (o : Object)
    (hg : w.objs[i]? = some o) :
    init_reply_ptr w (Handle.ref i) =
      (w.setObj i { o with refcount := o.refcount + 1 }, Handle.ref i) := by
  have hi : i < w.objs.length := (List.getElem?_eq_some.mp hg).1
  have a1 : acquireRef w i = w.setObj i { o with refcount := o.refcount + 1 } :=
    acquireRef_eq w i o hg
  have a2 : acquireRef (w.setObj i { o with refcount := o.refcount + 1 }) i
      = w.setObj i { o with refcount := o.refcount + 2 } := by
    simp [acquireRef, get_setObj_self _ _ _ hi, setObj_setObj]
  have h1 : o.refcount + 2 ≠ 1 := by omega
  have a3 : releaseRef (w.setObj i { o with refcount := o.refcount + 2 }) i
      = w.setObj i { o with refcount := o.refcount + 1 } := by
    simp [releaseRef, get_setObj_self _ _ _ hi, h1, setObj_setObj]
  show (releaseRef (acquireRef (acquireRef w i) i) i, Handle.ref i) = _
  rw [a1, a2, a3]

theorem reply_finished_eq (w : World) (i : ObjId) (o : Object)
    (hg : w.objs[i]? = some o) (hrc : 1 ≤ o.refcount) :
    reply_finished w (Handle.ref i) =
      w.setObj i { o with finishedCalls := o.finishedCalls + 1 } := by
  have hi : i < w.objs.length := (List.getElem?_eq_some.mp hg).1
  have a1 : acquireRef w i = w.setObj i { o with refcount := o.refcount + 1 } :=
    acquireRef_eq w i o hg
  have a2 : finishedNative (w.setObj i { o with refcount := o.refcount + 1 }) i
      = w.setObj i { o with refcount := o.refcount + 1,
                            finishedCalls := o.finishedCalls + 1 } := by
    simp [finishedNative, get_setObj_self _ _ _ hi, setObj_setObj]
  have h1 : o.refcount + 1 ≠ 1 := by omega
  have a3 : releaseRef (w.setObj i { o with refcount := o.refcount + 1,
                                            finishedCalls := o.finishedCalls + 1 }) i
      = w.setObj i { o with finishedCalls := o.finishedCalls + 1 } := by
    simp [releaseRef, get_setObj_self _ _ _ hi, h1, setObj_setObj]
  show releaseRef (finishedNative (acquireRef w i) i) i = _
  rw [a1, a2, a3]

theorem reply_register_category_eq (w : World) (i : ObjId) (o : Object)
    (hg : w.objs[i]? = some o) (hrc : 1 ≤ o.refcount) (id title icon : String) :
    reply_register_category w (Handle.ref i) id title icon =
      (⟨w.objs ++ [freshCategory id title icon]⟩, Handle.ref w.objs.length) := by
  have hi : i < w.objs.length := (List.getElem?_eq_some.mp hg).1
  have a1 : acquireRef w i = w.setObj i { o with refcount := o.refcount + 1 } :=
    acquireRef_eq w i o hg
  show (releaseRef (releaseRef (acquireRef
      ⟨(acquireRef w i).objs ++ [freshCategory id title icon]⟩
      (acquireRef w i).objs.length) (acquireRef w i).objs.length) i,
      Handle.ref (acquireRef w i).objs.length) = _
  rw [a1]
  have hlen : (w.objs.set i { o with refcount := o.refcount + 1 }).length
      = w.objs.length := List.length_set _ _ _
  show (releaseRef (releaseRef (acquireRef
      ⟨w.objs.set i { o with refcount := o.refcount + 1 } ++
        [freshCategory id title icon]⟩
      (w.objs.set i { o with refcount := o.refcount + 1 }).length)
      (w.objs.set i { o with refcount := o.refcount + 1 }).length) i,
      Handle.ref (w.objs.set i { o with refcount := o.refcount + 1 }).length) = _
  rw [hlen]
  have hgn : (w.objs.set i { o with refcount := o.refcount + 1 } ++
      [freshCategory id title icon] : List Object)[w.objs.length]?
      = some (freshCategory id title icon) := by
    simp
  have a2 : acquireRef ⟨w.objs.set i { o with refcount := o.refcount + 1 } ++
      [freshCategory id title icon]⟩ w.objs.length
      = ⟨w.objs.set i { o with refcount := o.refcount + 1 } ++
         [{ freshCategory id title icon with refcount := 2 }]⟩ := by
    simp only [acquireRef, hgn]
    show World.mk ((w.objs.set i _ ++ [_]).set w.objs.length _) = _
    rw [← hlen, List.set_append]
    simp [freshCategory]
  rw [a2]
  have hgn2 : (w.objs.set i { o with refcount := o.refcount + 1 } ++
      [{ freshCategory id title icon with refcount := 2 }] : List Object)[w.objs.length]?
      = some { freshCategory id title icon with refcount := 2 } := by
    simp
  have a3 : releaseRef ⟨w.objs.set i { o with refcount := o.refcount + 1 } ++
      [{ freshCategory id title icon with refcount := 2 }]⟩ w.objs.length
      = ⟨w.objs.set i { o with refcount := o.refcount + 1 } ++
         [freshCategory id title icon]⟩ := by
    simp only [releaseRef, hgn2]
    show World.mk ((w.objs.set i _ ++ [_]).set w.objs.length _) = _
    rw [← hlen, List.set_append]
    simp [freshCategory]
  rw [a3]
  have hgi : (w.objs.set i { o with refcount := o.refcount + 1 } ++
      [freshCategory id title icon] : List Object)[i]?
      = some { o with refcount := o.refcount + 1 } := by
    rw [List.getElem?_append_left (by simpa using hi)]
    exact List.getElem?_set_self (by simpa using hi)
  have h1 : o.refcount + 1 ≠ 1 := by omega
  have a4 : releaseRef ⟨w.objs.set i { o with refcount := o.refcount + 1 } ++
      [freshCategory id title icon]⟩ i
      = ⟨w.objs ++ [freshCategory id title icon]⟩ := by
    simp only [releaseRef, hgi]
    rw [if_neg h1]
    show World.mk ((w.objs.set i _ ++ [_]).set i _) = _
    rw [List.set_append]
    simp only [List.length_set, hi, if_pos, List.set_set]
    show World.mk (w.objs.set i o ++ [freshCategory id title icon]) = _
    rw [set_of_get_self w.objs i o hg]
  rw [a4]

/-! ### Claims -/

/-- C1: for every valid (object, handle) pair, after
`init_reply_ptr(dest, src)` the refcount of the Managed Object referenced
by `src` equals its value before the call plus exactly one, and `dest` is
initialized to yield the same underlying object identity as `src`. -/
theorem C1_init_reply_refcount (w : World) (i : ObjId) (o : Object)
    (hg : w.objs[i]? = some o) :
    (init_reply_ptr w (Handle.ref i)).1.objs[i]? =
        some { o with refcount := o.refcount + 1 } ∧
    get_ptr (init_reply_ptr w (Handle.ref i)).2 = get_ptr (Handle.ref i) := by
  have hi := (List.getElem?_eq_some.mp hg).1
  rw [init_reply_ptr_eq w i o hg]
  exact ⟨get_setObj_self _ _ _ hi, rfl⟩

/-- Witness for C1 at a concrete world: one object of refcount 2. -/
theorem C1_witness :
    (init_reply_ptr ⟨[⟨2, 0, "", "", "", 0⟩]⟩ (Handle.ref 0)).1.objs[0]? =
        some ⟨3, 0, "", "", "", 0⟩ ∧
    get_ptr (init_reply_ptr ⟨[⟨2, 0, "", "", "", 0⟩]⟩ (Handle.ref 0)).2 =
        get_ptr (Handle.ref 0) :=
  C1_init_reply_refcount ⟨[⟨2, 0, "", "", "", 0⟩]⟩ 0 ⟨2, 0, "", "", "", 0⟩ rfl

/-- C2: for every initialized handle, a single `destroy_reply_ptr` call
(identical to `destroy_category_ptr`) decrements the referenced object's
refcount by exactly one, and the cleanup counter is bumped exactly once
when the refcount thereby reaches zero, and not at all otherwise. -/
theorem C2_destroy_decrements (w : World) (i : ObjId) (o : Object)
    (hg : w.objs[i]? = some o) (hrc : 1 ≤ o.refcount) :
    destroy_reply_ptr w (Handle.ref i) = destroy_category_ptr w (Handle.ref i) ∧
    (destroy_reply_ptr w (Handle.ref i)).objs[i]? =
      some { o with refcount := o.refcount - 1,
                    cleanups := if o.refcount = 1 then o.cleanups + 1
                                else o.cleanups } :=
  ⟨rfl, releaseRef_get_self w i o hg⟩

/-- Witness for C2: destroying the last reference runs cleanup once. -/
theorem C2_witness :
    destroy_reply_ptr ⟨[⟨1, 0, "", "", "", 0⟩]⟩ (Handle.ref 0) =
        destroy_category_ptr ⟨[⟨1, 0, "", "", "", 0⟩]⟩ (Handle.ref 0) ∧
    (destroy_reply_ptr ⟨[⟨1, 0, "", "", "", 0⟩]⟩ (Handle.ref 0)).objs[0]? =
        some ⟨0, 1, "", "", "", 0⟩ :=
  C2_destroy_decrements ⟨[⟨1, 0, "", "", "", 0⟩]⟩ 0 ⟨1, 0, "", "", "", 0⟩ rfl
    (by decide)

/-- C3: `reply_register_category(reply, id, title, icon, category)` creates
a new Managed Object handed to the freshly initialized output handle, the
new Category's refcount is 1, and the refcount of the receiver Reply is
unchanged by the call (the receiver's slot is exactly as before). -/
theorem C3_register_category_fresh (w : World) (i : ObjId) (o : Object)
    (hg : w.objs[i]? = some o) (hrc : 1 ≤ o.refcount) (id title icon : String) :
    (reply_register_category w (Handle.ref i) id title icon).2 =
        Handle.ref w.objs.length ∧
    (reply_register_category w (Handle.ref i) id title icon).1.objs[w.objs.length]? =
        some (freshCategory id title icon) ∧
    (freshCategory id title icon).refcount = 1 ∧
    (reply_register_category w (Handle.ref i) id title icon).1.objs[i]? = some o := by
  have hi := (List.getElem?_eq_some.mp hg).1
  rw [reply_register_category_eq w i o hg hrc]
  refine ⟨rfl, by simp, rfl, ?_⟩
  show (w.objs ++ [freshCategory id title icon])[i]? = some o
  rw [List.getElem?_append_left hi]
  exact hg

/-- Witness for C3 on the spec's scenario: reply of refcount 2, fresh
category at slot 1 with refcount 1, reply slot unchanged. -/
theorem C3_witness :
    (reply_register_category ⟨[⟨2, 0, "", "", "", 0⟩]⟩ (Handle.ref 0)
        "id1" "Title" "icon.svg").2 = Handle.ref 1 ∧
    (reply_register_category ⟨[⟨2, 0, "", "", "", 0⟩]⟩ (Handle.ref 0)
        "id1" "Title" "icon.svg").1.objs[1]? =
        some (freshCategory "id1" "Title" "icon.svg") ∧
    (freshCategory "id1" "Title" "icon.svg").refcount = 1 ∧
    (reply_register_category ⟨[⟨2, 0, "", "", "", 0⟩]⟩ (Handle.ref 0)
        "id1" "Title" "icon.svg").1.objs[0]? = some ⟨2, 0, "", "", "", 0⟩ :=
  C3_register_category_fresh ⟨[⟨2, 0, "", "", "", 0⟩]⟩ 0 ⟨2, 0, "", "", "", 0⟩
    rfl (by decide) "id1" "Title" "icon.svg"

/-- C4: `run_scope(name, config, callback)` performs exactly the runtime
construction and the adapter wrapping, and never the execution step: the
`runtime->run_scope` call is commented out in src/shim.cpp line 17, so the
call returns without driving the scope. -/
theorem C4_run_scope_no_execution (scope_name runtime_config : String) :
    run_scope scope_name runtime_config =
      [ScopeEvent.createRuntime scope_name runtime_config,
       ScopeEvent.createAdapter] ∧
    ScopeEvent.runScope ∉ run_scope scope_name runtime_config := by
  refine ⟨rfl, ?_⟩
  simp [run_scope]

/-- C5: after `init_reply_ptr(h2, h1)` for an initialized `h1`, every read
through `h2` yields identical observable object state as the same read
through `h1`: both handles resolve to the same Managed Object. -/
theorem C5_round_trip (w : World) (h1 : Handle) (i : ObjId)
    (hinit : h1 = Handle.ref i) :
    get_ptr (init_reply_ptr w h1).2 = get_ptr h1 ∧
    readObject (init_reply_ptr w h1).1 (init_reply_ptr w h1).2 =
      readObject (init_reply_ptr w h1).1 h1 ∧
    readTitle (init_reply_ptr w h1).1 (init_reply_ptr w h1).2 =
      readTitle (init_reply_ptr w h1).1 h1 := by
  subst hinit
  exact ⟨rfl, rfl, rfl⟩

/-- Witness for C5 at a concrete world with an observable title. -/
theorem C5_witness :
    get_ptr (init_reply_ptr ⟨[⟨2, 0, "", "Title", "", 0⟩]⟩ (Handle.ref 0)).2 =
        get_ptr (Handle.ref 0) ∧
    readObject (init_reply_ptr ⟨[⟨2, 0, "", "Title", "", 0⟩]⟩ (Handle.ref 0)).1
        (init_reply_ptr ⟨[⟨2, 0, "", "Title", "", 0⟩]⟩ (Handle.ref 0)).2 =
      readObject (init_reply_ptr ⟨[⟨2, 0, "", "Title", "", 0⟩]⟩ (Handle.ref 0)).1
        (Handle.ref 0) ∧
    readTitle (init_reply_ptr ⟨[⟨2, 0, "", "Title", "", 0⟩]⟩ (Handle.ref 0)).1
        (init_reply_ptr ⟨[⟨2, 0, "", "Title", "", 0⟩]⟩ (Handle.ref 0)).2 =
      readTitle (init_reply_ptr ⟨[⟨2, 0, "", "Title", "", 0⟩]⟩ (Handle.ref 0)).1
        (Handle.ref 0) :=
  C5_round_trip ⟨[⟨2, 0, "", "Title", "", 0⟩]⟩ (Handle.ref 0) 0 rfl

/-- C6: `reply_finished` on an initialized reply handle invokes the
terminal `finished()` operation on the underlying Reply exactly once (its
invocation counter is bumped by one and nothing else of the object
changes, in particular not its refcount), and no other object of the
world is touched. -/
theorem C6_reply_finished_effect (w : World) (i : ObjId) (o : Object)
    (hg : w.objs[i]? = some o) (hrc : 1 ≤ o.refcount) :
    (reply_finished w (Handle.ref i)).objs[i]? =
      some { o with finishedCalls := o.finishedCalls + 1 } ∧
    ∀ j, j ≠ i → (reply_finished w (Handle.ref i)).objs[j]? = w.objs[j]? := by
  have hi := (List.getElem?_eq_some.mp hg).1
  rw [reply_finished_eq w i o hg hrc]
  exact ⟨get_setObj_self _ _ _ hi,
    fun j hj => get_setObj_ne _ _ _ _ (fun he => hj he.symm)⟩

/-- Witness for C6 at a concrete world. -/
theorem C6_witness :
    (reply_finished ⟨[⟨2, 0, "", "", "", 0⟩]⟩ (Handle.ref 0)).objs[0]? =
        some ⟨2, 0, "", "", "", 1⟩ ∧
    ∀ j, j ≠ 0 →
      (reply_finished ⟨[⟨2, 0, "", "", "", 0⟩]⟩ (Handle.ref 0)).objs[j]? =
        (⟨[⟨2, 0, "", "", "", 0⟩]⟩ : World).objs[j]? :=
  C6_reply_finished_effect ⟨[⟨2, 0, "", "", "", 0⟩]⟩ 0 ⟨2, 0, "", "", "", 0⟩
    rfl (by decide)

/-- C7: a handle is by construction either uninitialized or an
initialized shared reference, and every Bridge operation preserves the
accounting invariant `Inv`: each object's refcount equals the number of
live initialized handles referencing it (each contributing exactly one
count) plus its internal native references. `init_reply_ptr` adds the
fresh `dest` handle, the destroy operations retire the destroyed handle,
`reply_finished` changes no ownership, and `reply_register_category`
adds the fresh category handle (with zero internal references on the
fresh object). -/
theorem C7_invariant_preservation (w : World) (hs : List Handle)
    (internal : Nat → Nat) (hInv : Inv w hs internal) :
    (∀ h : Handle, h = Handle.uninit ∨ ∃ i, h = Handle.ref i) ∧
    (∀ src, src ∈ hs →
      Inv (init_reply_ptr w src).1 ((init_reply_ptr w src).2 :: hs) internal) ∧
    (∀ h, h ∈ hs → Inv (destroy_reply_ptr w h) (hs.erase h) internal) ∧
    (∀ h, h ∈ hs → Inv (destroy_category_ptr w h) (hs.erase h) internal) ∧
    (∀ h, h ∈ hs → Inv (reply_finished w h) hs internal) ∧
    (∀ h id title icon, h ∈ hs →
      (∀ j, w.objs.length ≤ j → internal j = 0) →
      Inv (reply_register_category w h id title icon).1
          ((reply_register_category w h id title icon).2 :: hs) internal) := by
  have hTwoState : ∀ h : Handle, h = Handle.uninit ∨ ∃ i, h = Handle.ref i := by
    intro h
    cases h with
    | uninit => exact Or.inl rfl
    | ref i => exact Or.inr ⟨i, rfl⟩
  have hUninitCons : Inv w (Handle.uninit :: hs) internal := by
    refine ⟨?_, ?_⟩
    · intro j o hgo
      rw [List.count_cons_of_ne (by simp)]
      exact hInv.1 j o hgo
    · intro j hm2
      rcases List.mem_cons.mp hm2 with h | h
      · simp at h
      · exact hInv.2 j h
  have hInit : ∀ src, src ∈ hs →
      Inv (init_reply_ptr w src).1 ((init_reply_ptr w src).2 :: hs) internal := by
    intro src hmem
    cases src with
    | uninit => exact hUninitCons
    | ref i =>
      have hiv : i < w.objs.length := hInv.2 i hmem
      obtain ⟨o, hg⟩ : ∃ o, w.objs[i]? = some o :=
        ⟨w.objs[i], List.getElem?_eq_getElem hiv⟩
      have key : Inv (w.setObj i { o with refcount := o.refcount + 1 })
          (Handle.ref i :: hs) internal := by
        refine ⟨?_, ?_⟩
        · intro j o' hgo'
          by_cases hji : j = i
          · subst hji
            rw [get_setObj_self _ _ _ hiv] at hgo'
            injection hgo' with he
            subst he
            rw [List.count_cons_self]
            have h0 := hInv.1 j o hg
            show o.refcount + 1 = hs.count (Handle.ref j) + 1 + internal j
            omega
          · rw [get_setObj_ne _ _ _ _ (fun he => hji he.symm)] at hgo'
            rw [List.count_cons_of_ne (by simp [hji])]
            exact hInv.1 j o' hgo'
        · intro j hm2
          rw [setObj_length]
          rcases List.mem_cons.mp hm2 with h | h
          · injection h with h2
            subst h2
            exact hiv
          · exact hInv.2 j h
      rw [init_reply_ptr_eq w i o hg]
      exact key
  have hDestroy : ∀ h, h ∈ hs →
      Inv (destroy_reply_ptr w h) (hs.erase h) internal := by
    intro h hmem
    cases h with
    | uninit =>
      refine ⟨?_, ?_⟩
      · intro j o hgo
        rw [List.count_erase_of_ne (by simp)]
        exact hInv.1 j o hgo
      · intro j hm2
        exact hInv.2 j (List.erase_subset _ _ hm2)
    | ref i =>
      have hiv : i < w.objs.length := hInv.2 i hmem
      obtain ⟨o, hg⟩ : ∃ o, w.objs[i]? = some o :=
        ⟨w.objs[i], List.getElem?_eq_getElem hiv⟩
      have hcnt : 0 < hs.count (Handle.ref i) := List.count_pos_iff.mpr hmem
      refine ⟨?_, ?_⟩
      · intro j o' hgo'
        by_cases hji : j = i
        · subst hji
          have hgo2 : (releaseRef w j).objs[j]? = some o' := hgo'
          rw [releaseRef_get_self w j o hg] at hgo2
          injection hgo2 with he
          subst he
          rw [List.count_erase_self]
          have h0 := hInv.1 j o hg
          show o.refcount - 1 = hs.count (Handle.ref j) - 1 + internal j
          omega
        · have hgo2 : (releaseRef w i).objs[j]? = some o' := hgo'
          rw [releaseRef_get_ne w i j (fun he => hji he.symm)] at hgo2
          rw [List.count_erase_of_ne (by simp [hji])]
          exact hInv.1 j o' hgo2
      · intro j hm2
        have : (destroy_reply_ptr w (Handle.ref i)).objs.length = w.objs.length :=
          releaseRef_length w i
        rw [this]
        exact hInv.2 j (List.erase_subset _ _ hm2)
  have hFin : ∀ h, h ∈ hs → Inv (reply_finished w h) hs internal := by
    intro h hmem
    cases h with
    | uninit => exact hInv
    | ref i =>
      have hiv : i < w.objs.length := hInv.2 i hmem
      obtain ⟨o, hg⟩ : ∃ o, w.objs[i]? = some o :=
        ⟨w.objs[i], List.getElem?_eq_getElem hiv⟩
      have h0 := hInv.1 i o hg
      have hcnt : 0 < hs.count (Handle.ref i) := List.count_pos_iff.mpr hmem
      have hrc : 1 ≤ o.refcount := by omega
      rw [reply_finished_eq w i o hg hrc]
      refine ⟨?_, ?_⟩
      · intro j o' hgo'
        by_cases hji : j = i
        · subst hji
          rw [get_setObj_self _ _ _ hiv] at hgo'
          injection hgo' with he
          subst he
          exact h0
        · rw [get_setObj_ne _ _ _ _ (fun he => hji he.symm)] at hgo'
          exact hInv.1 j o' hgo'
      · intro j hm2
        rw [setObj_length]
        exact hInv.2 j hm2
  have hReg : ∀ h id title icon, h ∈ hs →
      (∀ j, w.objs.length ≤ j → internal j = 0) →
      Inv (reply_register_category w h id title icon).1
          ((reply_register_category w h id title icon).2 :: hs) internal := by
    intro h id title icon hmem hint
    cases h with
    | uninit => exact hUninitCons
    | ref i =>
      have hiv : i < w.objs.length := hInv.2 i hmem
      obtain ⟨o, hg⟩ : ∃ o, w.objs[i]? = some o :=
        ⟨w.objs[i], List.getElem?_eq_getElem hiv⟩
      have h0 := hInv.1 i o hg
      have hcnt : 0 < hs.count (Handle.ref i) := List.count_pos_iff.mpr hmem
      have hrc : 1 ≤ o.refcount := by omega
      have key : Inv ⟨w.objs ++ [freshCategory id title icon]⟩
          (Handle.ref w.objs.length :: hs) internal := by
        refine ⟨?_, ?_⟩
        · intro j o' hgo'
          have hgo2 : (w.objs ++ [freshCategory id title icon])[j]? = some o' :=
            hgo'
          by_cases hjn : j = w.objs.length
          · subst hjn
            have hfr : (w.objs ++ [freshCategory id title icon])[w.objs.length]?
                = some (freshCategory id title icon) := by simp
            rw [hfr] at hgo2
            injection hgo2 with he
            subst he
            rw [List.count_cons_self]
            have hnot : Handle.ref w.objs.length ∉ hs :=
              fun hmm => absurd (hInv.2 _ hmm) (lt_irrefl _)
            rw [List.count_eq_zero.mpr hnot, hint _ (le_refl _)]
            rfl
          · rw [List.count_cons_of_ne (by simp [hjn])]
            by_cases hjlt : j < w.objs.length
            · rw [List.getElem?_append_left hjlt] at hgo2
              exact hInv.1 j o' hgo2
            · exfalso
              have h3 : w.objs.length ≤ j := Nat.le_of_not_lt hjlt
              have h4 : ¬ j = w.objs.length := hjn
              have h5 : w.objs.length < j := Nat.lt_of_le_of_ne h3 (fun he => h4 he.symm)
              have hge : (w.objs ++ [freshCategory id title icon]).length ≤ j := by
                simp only [List.length_append, List.length_cons, List.length_nil]
                exact h5
              rw [List.getElem?_eq_none hge] at hgo2
              simp at hgo2
        · intro j hm2
          have hlenw : (⟨w.objs ++ [freshCategory id title icon]⟩ : World).objs.length
              = w.objs.length + 1 := by simp
          rw [hlenw]
          rcases List.mem_cons.mp hm2 with h | h
          · injection h with h2
            subst h2
            exact Nat.lt_succ_self _
          · exact Nat.lt_succ_of_lt (hInv.2 j h)
      rw [reply_register_category_eq w i o hg hrc id title icon]
      exact key
  exact ⟨hTwoState, hInit, hDestroy, hDestroy, hFin, hReg⟩

/-- Witness for C7: the invariant holds and is preserved on a concrete
configuration — one object of refcount 2 held by one foreign handle and
one internal native reference. -/
theorem C7_witness :
    (∀ h : Handle, h = Handle.uninit ∨ ∃ i, h = Handle.ref i) ∧
    (∀ src, src ∈ [Handle.ref 0] →
      Inv (init_reply_ptr ⟨[⟨2, 0, "", "", "", 0⟩]⟩ src).1
          ((init_reply_ptr ⟨[⟨2, 0, "", "", "", 0⟩]⟩ src).2 :: [Handle.ref 0])
          (fun j => if j = 0 then 1 else 0)) ∧
    (∀ h, h ∈ [Handle.ref 0] →
      Inv (destroy_reply_ptr ⟨[⟨2, 0, "", "", "", 0⟩]⟩ h)
          (List.erase [Handle.ref 0] h) (fun j => if j = 0 then 1 else 0)) ∧
    (∀ h, h ∈ [Handle.ref 0] →
      Inv (destroy_category_ptr ⟨[⟨2, 0, "", "", "", 0⟩]⟩ h)
          (List.erase [Handle.ref 0] h) (fun j => if j = 0 then 1 else 0)) ∧
    (∀ h, h ∈ [Handle.ref 0] →
      Inv (reply_finished ⟨[⟨2, 0, "", "", "", 0⟩]⟩ h)
          [Handle.ref 0] (fun j => if j = 0 then 1 else 0)) ∧
    (∀ h id title icon, h ∈ [Handle.ref 0] →
      (∀ j, (⟨[⟨2, 0, "", "", "", 0⟩]⟩ : World).objs.length ≤ j →
        (fun j => if j = 0 then 1 else 0 : Nat → Nat) j = 0) →
      Inv (reply_register_category ⟨[⟨2, 0, "", "", "", 0⟩]⟩ h id title icon).1
          ((reply_register_category ⟨[⟨2, 0, "", "", "", 0⟩]⟩ h id title icon).2
            :: [Handle.ref 0])
          (fun j => if j = 0 then 1 else 0)) := by
  have hInv0 : Inv ⟨[⟨2, 0, "", "", "", 0⟩]⟩ [Handle.ref 0]
      (fun j => if j = 0 then 1 else 0) := by
    refine ⟨?_, ?_⟩
    · intro i o hgo
      have hgo2 : ([(⟨2, 0, "", "", "", 0⟩ : Object)] : List Object)[i]? = some o :=
        hgo
      match i with
      | 0 =>
        simp at hgo2
        subst hgo2
        decide
      | Nat.succ n => simp at hgo2
    · intro i hm
      have hm2 : Handle.ref i ∈ [Handle.ref 0] := hm
      simp at hm2
      subst hm2
      decide
  exact C7_invariant_preservation ⟨[⟨2, 0, "", "", "", 0⟩]⟩ [Handle.ref 0]
    (fun j => if j = 0 then 1 else 0) hInv0

/-- C8: the shim catches, translates and suppresses nothing: with the
native steps modelled as fallible computations, a failure raised by
`Runtime::create`, by the adapter construction, by `Reply::finished` or
by `Reply::register_category` propagates unchanged to the caller. -/
theorem C8_error_propagation
    (create : String → String → Except String Unit)
    (mkAdapter : Except String Unit)
    (scope_name runtime_config : String) (e : String)
    (f : ObjId → World → Except String World)
    (g : ObjId → World → Except String (World × ObjId))
    (w : World) (i : ObjId) :
    (create scope_name runtime_config = Except.error e →
      run_scope_exc create mkAdapter scope_name runtime_config =
        Except.error e) ∧
    ((∃ u, create scope_name runtime_config = Except.ok u) →
      mkAdapter = Except.error e →
      run_scope_exc create mkAdapter scope_name runtime_config =
        Except.error e) ∧
    (f i (acquireRef w i) = Except.error e →
      reply_finished_exc f w (Handle.ref i) = Except.error e) ∧
    (g i (acquireRef w i) = Except.error e →
      reply_register_category_exc g w (Handle.ref i) = Except.error e) := by
  refine ⟨?_, ?_, ?_, ?_⟩
  · intro h
    simp [run_scope_exc, h]
  · rintro ⟨u, hu⟩ h
    simp [run_scope_exc, hu, h]
  · intro h
    simp [reply_finished_exc, get_ptr, h]
  · intro h
    simp [reply_register_category_exc, get_ptr, h]

/-- Witness for C8: a failing native step surfaces as the same error. -/
theorem C8_witness :
    run_scope_exc (fun _ _ => Except.error "bad config") (Except.ok ())
        "scope" "cfg" = Except.error "bad config" ∧
    run_scope_exc (fun _ _ => Except.ok ()) (Except.error "bad adapter")
        "scope" "cfg" = Except.error "bad adapter" ∧
    reply_finished_exc (fun _ _ => Except.error "native failure")
        ⟨[⟨1, 0, "", "", "", 0⟩]⟩ (Handle.ref 0) =
      Except.error "native failure" ∧
    reply_register_category_exc (fun _ _ => Except.error "native failure")
        ⟨[⟨1, 0, "", "", "", 0⟩]⟩ (Handle.ref 0) =
      Except.error "native failure" := by
  refine ⟨?_, ?_, ?_, ?_⟩
  · exact (C8_error_propagation (fun _ _ => Except.error "bad config")
      (Except.ok ()) "scope" "cfg" "bad config" (fun _ w => Except.ok w)
      (fun _ w => Except.ok (w, 0)) ⟨[]⟩ 0).1 rfl
  · exact (C8_error_propagation (fun _ _ => Except.ok ())
      (Except.error "bad adapter") "scope" "cfg" "bad adapter"
      (fun _ w => Except.ok w) (fun _ w => Except.ok (w, 0)) ⟨[]⟩ 0).2.1
      ⟨(), rfl⟩ rfl
  · exact (C8_error_propagation (fun _ _ => Except.ok ()) (Except.ok ())
      "scope" "cfg" "native failure" (fun _ _ => Except.error "native failure")
      (fun _ w => Except.ok (w, 0)) ⟨[⟨1, 0, "", "", "", 0⟩]⟩ 0).2.2.1 rfl
  · exact (C8_error_propagation (fun _ _ => Except.ok ()) (Except.ok ())
      "scope" "cfg" "native failure" (fun _ w => Except.ok w)
      (fun _ _ => Except.error "native failure")
      ⟨[⟨1, 0, "", "", "", 0⟩]⟩ 0).2.2.2 rfl

/-- C9 (implicit): `init_reply_ptr(dest, src)` leaves `src` untouched: it
still resolves to object `i`, object `i` is still alive (its cleanup
counter, business fields and identity are unchanged; only the refcount
grows by the one count now held by `dest`), no other object of the world
is touched and nothing is allocated or freed. -/
theorem C9_init_src_frame (w : World) (i : ObjId) (o : Object)
    (hg : w.objs[i]? = some o) :
    get_ptr (Handle.ref i) = some i ∧
    (init_reply_ptr w (Handle.ref i)).1.objs[i]? =
        some { o with refcount := o.refcount + 1 } ∧
    (∀ j, j ≠ i →
      (init_reply_ptr w (Handle.ref i)).1.objs[j]? = w.objs[j]?) ∧
    (init_reply_ptr w (Handle.ref i)).1.objs.length = w.objs.length := by
  have hi := (List.getElem?_eq_some.mp hg).1
  rw [init_reply_ptr_eq w i o hg]
  exact ⟨rfl, get_setObj_self _ _ _ hi,
    fun j hj => get_setObj_ne _ _ _ _ (fun he => hj he.symm),
    setObj_length _ _ _⟩

/-- Witness for C9 at a concrete world with two objects. -/
theorem C9_witness :
    get_ptr (Handle.ref 0) = some 0 ∧
    (init_reply_ptr ⟨[⟨2, 0, "a", "b", "c", 0⟩, ⟨5, 0, "", "", "", 0⟩]⟩
        (Handle.ref 0)).1.objs[0]? = some ⟨3, 0, "a", "b", "c", 0⟩ ∧
    (∀ j, j ≠ 0 →
      (init_reply_ptr ⟨[⟨2, 0, "a", "b", "c", 0⟩, ⟨5, 0, "", "", "", 0⟩]⟩
          (Handle.ref 0)).1.objs[j]? =
        (⟨[⟨2, 0, "a", "b", "c", 0⟩, ⟨5, 0, "", "", "", 0⟩]⟩ : World).objs[j]?) ∧
    (init_reply_ptr ⟨[⟨2, 0, "a", "b", "c", 0⟩, ⟨5, 0, "", "", "", 0⟩]⟩
        (Handle.ref 0)).1.objs.length =
      (⟨[⟨2, 0, "a", "b", "c", 0⟩, ⟨5, 0, "", "", "", 0⟩]⟩ : World).objs.length :=
  C9_init_src_frame ⟨[⟨2, 0, "a", "b", "c", 0⟩, ⟨5, 0, "", "", "", 0⟩]⟩ 0
    ⟨2, 0, "a", "b", "c", 0⟩ rfl

/-- C10 (implicit): the invoke-style operations leave their input reply
handle in the initialized state: after `reply_finished` the referenced
object keeps its refcount and cleanup count (only the invocation counter
moves), and after `reply_register_category` the receiver's slot is
exactly as before; in both cases the handle still resolves to the same
live object and may be used again. -/
theorem C10_invoke_preserves_reply (w : World) (i : ObjId) (o : Object)
    (hg : w.objs[i]? = some o) (hrc : 1 ≤ o.refcount) (id title icon : String) :
    (reply_finished w (Handle.ref i)).objs[i]? =
        some { o with finishedCalls := o.finishedCalls + 1 } ∧
    ({ o with finishedCalls := o.finishedCalls + 1 } : Object).refcount =
        o.refcount ∧
    ({ o with finishedCalls := o.finishedCalls + 1 } : Object).cleanups =
        o.cleanups ∧
    (reply_register_category w (Handle.ref i) id title icon).1.objs[i]? =
        some o ∧
    get_ptr (Handle.ref i) = some i := by
  have hi := (List.getElem?_eq_some.mp hg).1
  refine ⟨?_, rfl, rfl, ?_, rfl⟩
  · rw [reply_finished_eq w i o hg hrc]
    exact get_setObj_self _ _ _ hi
  · rw [reply_register_category_eq w i o hg hrc]
    show (w.objs ++ [freshCategory id title icon])[i]? = some o
    rw [List.getElem?_append_left hi]
    exact hg

/-- Witness for C10 at a concrete world. -/
theorem C10_witness :
    (reply_finished ⟨[⟨3, 0, "", "", "", 0⟩]⟩ (Handle.ref 0)).objs[0]? =
        some ⟨3, 0, "", "", "", 1⟩ ∧
    (⟨3, 0, "", "", "", 1⟩ : Object).refcount = 3 ∧
    (⟨3, 0, "", "", "", 1⟩ : Object).cleanups = 0 ∧
    (reply_register_category ⟨[⟨3, 0, "", "", "", 0⟩]⟩ (Handle.ref 0)
        "i" "t" "c").1.objs[0]? = some ⟨3, 0, "", "", "", 0⟩ ∧
    get_ptr (Handle.ref 0) = some 0 :=
  C10_invoke_preserves_reply ⟨[⟨3, 0, "", "", "", 0⟩]⟩ 0 ⟨3, 0, "", "", "", 0⟩
    rfl (by decide) "i" "t" "c"

end GoUnityScopes
